import Mathlib

/-!
Verification of the DSC Python resource adapter and its APT package resource.

Source files embedded here:
  - src/adapters/python/adapter.py   (class ResourceAdapter, helpers)
  - src/resources/apt/AptPackage.py  (class AptPackage)

The embedding is shallow.  JSON values are modelled by the inductive `JValue`;
Python exceptions by `PyErr` / `PyExn`; the external package-manager processes
(dpkg, apt-get, apt-cache) are modelled by a `World` record that answers each
query the code makes and records every mutating command the code issues.
Python string operations used by the code (split on whitespace, strip, lower,
substring containment, lexicographic comparison) are defined directly on
character lists so that every definition is executable.
-/

namespace DSC

/-- JSON values as handled by the Python code via json.loads / dicts. -/
inductive JValue where
  | null
  | bool (b : Bool)
  | str (s : String)
  | num (n : Int)
  | arr (elems : List JValue)
  | obj (fields : List (String × JValue))

/-- Python truthiness of a JSON value: None, False, 0, empty string, empty
list and empty dict are falsy, everything else truthy. -/
def JValue.truthy : JValue → Bool
  | .null => false
  | .bool b => b
  | .str s => s ≠ ""
  | .num n => n ≠ 0
  | .arr xs => !xs.isEmpty
  | .obj fs => !fs.isEmpty

def JValue.isNull : JValue → Bool
  | .null => true
  | _ => false

def JValue.isStr : JValue → Bool
  | .str _ => true
  | _ => false

/-- Python equality between an arbitrary JSON value and a string. -/
def JValue.eqStr : JValue → String → Bool
  | .str s, t => s = t
  | _, _ => false

/-- Python equality between an arbitrary JSON value and a bool.  Python
treats True == 1 and False == 0 as true, which the num case reflects. -/
def JValue.eqBool : JValue → Bool → Bool
  | .bool b, c => b = c
  | .num n, c => n = (if c then 1 else 0)
  | _, _ => false

/-- Python equality between a JSON value and an optional string (None or a
string), as used by the export filter comparisons. -/
def JValue.eqOptStr : JValue → Option String → Bool
  | .null, none => true
  | .str s, some t => s = t
  | _, _ => false

/-- Python equality between a JSON value and a list of strings (list
equality, elementwise). -/
def JValue.eqStrList : JValue → List String → Bool
  | .arr xs, ts =>
      xs.length = ts.length && (xs.zip ts).all (fun p => p.1.eqStr p.2)
  | _, _ => false

/-- First-match lookup in an association list, i.e. Python dict access on a
dict without duplicate keys. -/
def lookupF (fs : List (String × JValue)) (k : String) : Option JValue :=
  match fs with
  | [] => none
  | (k', v) :: rest => if k' = k then some v else lookupF rest k

/-- Remove a key from an association list (Python dict.pop; a dict holds
each key once, so removing every occurrence agrees with it). -/
def eraseF (fs : List (String × JValue)) (k : String) : List (String × JValue) :=
  match fs with
  | [] => []
  | (k1, v1) :: rest => if k1 = k then eraseF rest k else (k1, v1) :: eraseF rest k

/-- Replace the value stored at a key, keeping the insertion position
(Python dict assignment on an existing key). -/
def setF (fs : List (String × JValue)) (k : String) (v : JValue) : List (String × JValue) :=
  match fs with
  | [] => []
  | (k1, v1) :: rest =>
      (if k1 = k then (k1, v) else (k1, v1)) :: setF rest k v

/-- Dict lookup on a JSON value (dict.get, returning None when absent). -/
def JValue.lookup : JValue → String → Option JValue
  | .obj fs, k => lookupF fs k
  | _, _ => none

/-- Dict.get with the None default made explicit. -/
def JValue.getD (j : JValue) (k : String) : JValue :=
  (j.lookup k).getD .null

/-! ### Python string primitives -/

/-- Lexicographic comparison of character lists by code point, the order
Python uses to compare strings. -/
def charListLe : List Char → List Char → Bool
  | [], _ => true
  | _ :: _, [] => false
  | c :: cs, d :: ds =>
      if c.toNat < d.toNat then true
      else if d.toNat < c.toNat then false
      else charListLe cs ds

/-- Python string le (lexicographic by code point). -/
def pyStrLe (a b : String) : Bool := charListLe a.data b.data

/-- Does the first character list start with the second?  Used to model
Python str.startswith and substring search. -/
def leadsWith : List Char → List Char → Bool
  | _, [] => true
  | [], _ :: _ => false
  | c :: cs, d :: ds => c = d && leadsWith cs ds

/-- Python str.startswith. -/
def pyStarts (s pre : String) : Bool := leadsWith s.data pre.data

/-- Substring containment on character lists. -/
def hasSub (hay needle : List Char) : Bool :=
  match hay with
  | [] => leadsWith [] needle
  | _ :: t => leadsWith hay needle || hasSub t needle

/-- Python substring test (needle in hay). -/
def pyContains (hay needle : String) : Bool := hasSub hay.data needle.data

/-- Helper for pyWords: accumulate the current word (reversed) while
scanning. -/
def pyWordsAux : List Char → List Char → List String
  | [], cur => if cur = [] then [] else [String.mk cur.reverse]
  | c :: rest, cur =>
      if c.isWhitespace then
        if cur = [] then pyWordsAux rest []
        else String.mk cur.reverse :: pyWordsAux rest []
      else pyWordsAux rest (c :: cur)

/-- Python str.split() with no argument: split on whitespace runs,
dropping empty fields. -/
def pyWords (s : String) : List String := pyWordsAux s.data []

/-- Python str.strip(): drop whitespace on both ends. -/
def pyStrip (s : String) : String :=
  String.mk (((s.data.dropWhile Char.isWhitespace).reverse.dropWhile Char.isWhitespace).reverse)

/-- Python str.lower() restricted to the ASCII range, which is all the
adapter compares (resource-type tokens and operation names). -/
def pyLower (s : String) : String := String.mk (s.data.map Char.toLower)

/-! ### Python exceptions -/

/-- Exceptions that the embedded code can raise.  subprocess.run with
check=False returns a CompletedProcess even on a nonzero exit status and
raises only OS-level errors; CalledProcessError comes from check=True /
check_output invocations. -/
inductive PyErr where
  | typeError
  | osError
  | indexError
  | keyError
  | valueError
  | attributeError
  | calledProcessError
  deriving DecidableEq

/-- A raised exception as seen by the adapter: either SystemExit (which in
Python does not extend Exception) carrying its code attribute, or an
ordinary exception. -/
inductive PyExn where
  | sysExit (code : Option Int)
  | exn (e : PyErr)
  deriving DecidableEq

/-! ### The external package-manager world

The APT resource shells out to dpkg, apt-get and apt-cache.  The `World`
record answers each of those invocations and records every mutating
apt-get command the code issues.  Mutations replace the dpkg answer map by
a post-state supplied by the world, since the effect of apt-get on the
package database is external to this code. -/

/-- A mutating package-manager command issued by the resource. -/
inductive PmAction where
  | install (name : String)
  | remove (name : String)
  deriving DecidableEq

/-- Parsed fields of one apt-cache show block: the Package, Version,
Depends and Description lines when present (export scrapes exactly those
four prefixes). -/
structure ShowFields where
  name : Option String
  version : Option String
  dependencies : Option (List String)
  description : Option String

/-- External state and oracle for every process the resource launches. -/
structure World where
  /-- stdout lines of dpkg -l name, or the OS-level exception the launch
  raised (check=False, so a nonzero exit still yields lines). -/
  dpkg : String → Except PyErr (List String)
  /-- The dpkg answer map after a successful apt-get install -y name. -/
  postInstall : String → String → Except PyErr (List String)
  /-- The dpkg answer map after a successful apt-get remove -y name. -/
  postRemove : String → String → Except PyErr (List String)
  /-- Whether apt-get install -y name exits nonzero (CalledProcessError,
  caught and swallowed inside install). -/
  installFails : String → Bool
  /-- Whether apt-get remove -y name exits nonzero. -/
  removeFails : String → Bool
  /-- Whether the apt-cache show name probe at the top of export exits 0. -/
  showOk : String → Bool
  /-- Package names printed by dpkg-query -W (check_output: an error here
  is a raised exception). -/
  dpkgQueryAll : Except PyErr (List String)
  /-- Parsed apt-cache show output per enumerated package; none models the
  CalledProcessError that makes the loop continue. -/
  showData : String → Option ShowFields
  /-- http(s) URLs scraped from the installed block of apt-cache policy
  for a package name (positional text parsing abstracted to its result). -/
  policyUrls : String → List String
  /-- Whether the apt-cache policy scrape raises (caught: source becomes
  unknown). -/
  policyFails : String → Bool
  /-- Log of mutating apt-get commands issued so far. -/
  log : List PmAction
  /-- JSON documents the resource printed to stdout. -/
  printed : List JValue

/-! ### AptPackage (src/resources/apt/AptPackage.py) -/

/-- An AptPackage instance.  from_json performs no type validation, so
every field holds whatever JSON value the input supplied (name defaults to
None, exist to True, dependencies to the empty list). -/
structure AptPackage where
  name : JValue
  version : JValue
  exist : JValue
  source : JValue
  dependencies : JValue

/-- Loop body of installed_pkg_versions / get_latest_installed_version:
for each line that starts with ii and contains the package name, take the
third whitespace-delimited field.  A matching line with fewer than three
fields raises IndexError, aborting the collection. -/
def parseIiVersions (name : String) : List String → Except PyErr (List String)
  | [] => .ok []
  | l :: rest =>
      if pyStarts l "ii" && pyContains l name then
        match (pyWords l)[2]? with
        | none => .error .indexError
        | some v => (parseIiVersions name rest).map (fun vs => v :: vs)
      else parseIiVersions name rest

/-- Launch dpkg -l name.  A non-string name makes subprocess.run raise
TypeError before any process starts. -/
def dpkgRun (w : World) (name : JValue) : Except PyErr (List String) :=
  match name with
  | .str s => w.dpkg s
  | _ => .error .typeError

/-- AptPackage.installed_pkg_versions: query dpkg and collect ii-line
versions.  The except clause matches only subprocess.CalledProcessError,
so any other raised error (TypeError, OSError from the launch, IndexError
from the parse) propagates to the caller. -/
def installed_pkg_versions (w : World) (name : JValue) : Except PyErr (List String) :=
  match dpkgRun w name with
  | .error e => if e = .calledProcessError then .ok [] else .error e
  | .ok lines => parseIiVersions (match name with | .str s => s | _ => "") lines

/-- AptPackage.get_latest_installed_version: same dpkg query and ii-line
parse, then sorted(versions)[-1] if any, else None.  Its except clause
catches Exception, so every failure degrades to None. -/
def get_latest_installed_version (w : World) (name : JValue) : Option String :=
  match name with
  | .str s =>
      match w.dpkg s with
      | .error _ => none
      | .ok lines =>
          match parseIiVersions s lines with
          | .error _ => none
          | .ok vs => if vs.isEmpty then none else (vs.mergeSort pyStrLe).getLast?
  | _ => none

/-- AptPackage.is_installed: with a truthy version, membership of that
version in the installed versions, otherwise nonemptiness of the list.
The except Exception clause turns every raised error into False. -/
def is_installed (w : World) (p : AptPackage) : Bool :=
  if p.version.truthy then
    match installed_pkg_versions w p.name with
    | .error _ => false
    | .ok vs => vs.any (fun v => p.version.eqStr v)
  else
    match installed_pkg_versions w p.name with
    | .error _ => false
    | .ok vs => decide (vs.length > 0)

/-- The state dict built by AptPackage.get (the observed _exist flag is
the only computed boolean; source and dependencies echo the input). -/
structure PkgDict where
  name : JValue
  version : JValue
  exist : Bool
  source : JValue
  dependencies : JValue

/-- The dict AptPackage.get returns, in its insertion order. -/
def PkgDict.toJ (d : PkgDict) : JValue :=
  .obj [("name", d.name), ("version", d.version), ("_exist", .bool d.exist),
        ("source", d.source), ("dependencies", d.dependencies)]

/-- AptPackage.get: resolve installedness, fill in the latest installed
version when none was requested, and echo source/dependencies. -/
def aptGet (w : World) (p : AptPackage) : PkgDict :=
  let installed := is_installed w p
  let version :=
    if installed && !p.version.truthy then
      match get_latest_installed_version w p.name with
      | none => JValue.null
      | some v => JValue.str v
    else p.version
  { name := p.name, version := version, exist := installed,
    source := p.source, dependencies := p.dependencies }

/-- AptPackage.test: compare the desired _exist value with the observed
one and report the single property _exist when they differ. -/
def aptTest (w : World) (p : AptPackage) : PkgDict × List String :=
  let actual := aptGet w p
  let inDesired := p.exist.eqBool actual.exist
  (actual, if inDesired then [] else ["_exist"])

/-- AptPackage.install: run apt-get install -y name.  A nonzero exit is a
CalledProcessError, caught and logged inside install; a non-string name
raises TypeError out of the method.  The command itself is recorded in the
world log in every case where the process is launched. -/
def aptInstall (w : World) (name : JValue) : World × Except PyErr Unit :=
  match name with
  | .str s =>
      let w' := { w with log := w.log ++ [PmAction.install s] }
      if w.installFails s then (w', .ok ())
      else ({ w' with dpkg := w.postInstall s }, .ok ())
  | _ => (w, .error .typeError)

/-- AptPackage.delete: run apt-get remove -y name, mirroring install. -/
def aptDelete (w : World) (name : JValue) : World × Except PyErr Unit :=
  match name with
  | .str s =>
      let w' := { w with log := w.log ++ [PmAction.remove s] }
      if w.removeFails s then (w', .ok ())
      else ({ w' with dpkg := w.postRemove s }, .ok ())
  | _ => (w, .error .typeError)

/-- AptPackage.set: install when existence is desired but absent, remove
when present but undesired, then report whether the observed state
changed.  The except clause catches only CalledProcessError (which
install/delete already swallow) and would return a plain error string. -/
def aptSet (w : World) (p : AptPackage) : World × Except PyErr JValue :=
  let before := is_installed w p
  let (w1, r) :=
    if p.exist.truthy && !before then aptInstall w p.name
    else if !p.exist.truthy && before then aptDelete w p.name
    else (w, .ok ())
  match r with
  | .error .calledProcessError => (w1, .ok (.str "Failed to set state"))
  | .error e => (w1, .error e)
  | .ok _ =>
      let after := is_installed w1 p
      let diffs : List String := if before != after then ["_exist"] else []
      (w1, .ok (.obj [("_exist", .bool after),
                      ("differingProperties", .arr (diffs.map JValue.str))]))

/-! ### AptPackage.export -/

/-- The metadata dict export assembles for one enumerated package. -/
structure PkgInfo where
  name : Option String
  version : Option String
  dependencies : Option (List String)
  description : Option String
  source : String
  sourceRepos : List String

/-- Build pkg_info for one package: the four scraped apt-cache show fields
plus the source block.  Accessing pkg_info for the policy call raises
KeyError when the Package line was absent; that error and any policy
failure are caught inside the block, leaving source unknown.  The world
supplies the already-deduplicated URL list the positional policy scrape
produces. -/
def buildPkgInfo (w : World) (sf : ShowFields) : PkgInfo :=
  let urls : List String :=
    match sf.name with
    | none => []
    | some nm => if w.policyFails nm then [] else w.policyUrls nm
  { name := sf.name, version := sf.version, dependencies := sf.dependencies,
    description := sf.description,
    source := match urls with | [] => "unknown" | u :: _ => u,
    sourceRepos := urls }

/-- The JSON dict for one exported package, keys in the insertion order of
the source loop (show fields in their canonical emission order, then
source, sourceRepos when URLs were found, then _exist). -/
def PkgInfo.toJ (i : PkgInfo) : JValue :=
  .obj ((match i.name with | some n => [("name", JValue.str n)] | none => []) ++
        (match i.version with | some v => [("version", JValue.str v)] | none => []) ++
        (match i.dependencies with
         | some ds => [("dependencies", JValue.arr (ds.map JValue.str))]
         | none => []) ++
        (match i.description with | some d => [("description", JValue.str d)] | none => []) ++
        [("source", JValue.str i.source)] ++
        (if i.sourceRepos.isEmpty then []
         else [("sourceRepos", JValue.arr (i.sourceRepos.map JValue.str))]) ++
        [("_exist", JValue.bool true)])

/-- The filter comparisons of export: skip the entry (continue) unless
every non-absent filter field matches.  Reading the version key of a
pkg_info without a Version line raises KeyError, which escapes to the
outer handler. -/
def filterSkips (p : AptPackage) (info : PkgInfo) : Except PyErr Bool :=
  if !(p.name.eqOptStr info.name) then .ok true
  else
    match info.version with
    | none => .error .keyError
    | some ver =>
        if !(p.version.eqStr ver || p.version.isNull) then .ok true
        else if !(p.source.eqStr info.source || p.source.isNull) then .ok true
        else if !(p.dependencies.eqStrList (info.dependencies.getD []) ||
                  p.dependencies.isNull) then .ok true
        else .ok false

/-- The enumeration loop of export: apt-cache show per package (a failed
show is a CalledProcessError, caught by the inner except and skipped),
build pkg_info, apply the filter, and collect survivors in order. -/
def exportLoop (w : World) (p : AptPackage) : List String → Except PyErr (List JValue)
  | [] => .ok []
  | pkg :: rest =>
      match w.showData pkg with
      | none => exportLoop w p rest
      | some sf =>
          let info := buildPkgInfo w sf
          match filterSkips p info with
          | .error e => .error e
          | .ok true => exportLoop w p rest
          | .ok false => (exportLoop w p rest).map (fun l => info.toJ :: l)

/-- The outer except Exception branch of export: log, print an error body
with an empty packages list, and return a dict with an Error key.  Note
that this is a plain return, not a process exit. -/
def aptExportErrorReturn (w : World) (msg : String) : World × Except PyExn JValue :=
  ({ w with printed := w.printed ++
      [JValue.obj [("error", .str msg), ("packages", .arr [])]] },
   .ok (.obj [("Error", .str msg)]))

/-- AptPackage.export.  The adapter always passes an instance, so the
filter probe always runs.  When apt-cache show for the filter name exits
nonzero, the code calls adapter.log_error, a method that does not exist on
the adapter object: the AttributeError is caught by the outer except
Exception before the sys.exit(1) on the next line can run.  When the
enumeration finishes with no surviving package, sys.exit(1) raises
SystemExit, which does not extend Exception and escapes the outer
handler. -/
def aptExport (w : World) (p : AptPackage) : World × Except PyExn JValue :=
  match p.name with
  | .str nm =>
      if !w.showOk nm then
        aptExportErrorReturn w "AttributeError: log_error"
      else
        match w.dpkgQueryAll with
        | .error e => aptExportErrorReturn w (match e with
            | .calledProcessError => "CalledProcessError: dpkg-query"
            | _ => "OSError: dpkg-query")
        | .ok pkgs =>
            match exportLoop w p pkgs with
            | .error _ => aptExportErrorReturn w "KeyError: version"
            | .ok packages =>
                if packages.isEmpty then (w, .error (.sysExit (some 1)))
                else
                  ({ w with printed := w.printed ++
                      [JValue.obj [("packages", .arr packages)]] },
                   .ok .null)
  | _ => aptExportErrorReturn w "TypeError: subprocess argument"

/-! ### ResourceAdapter (src/adapters/python/adapter.py) -/

/-- ResourceAdapter.validate_input_json.  Every check in its body is
commented out in the source; the method returns True unconditionally. -/
def validate_input_json (_input : Option JValue) (_operation : Option String) : Bool :=
  true

/-- AptPackage.from_json: run the (disabled) validation, then json.loads,
which raises on malformed input; field access via dict.get with the
defaults of the source (exist defaults to True, dependencies to the empty
list through the or-[] truthiness idiom).  json.loads of a well-formed
non-object document yields a value without a get method, so the field
accesses raise AttributeError. -/
def from_json (input : Option JValue) (operation : Option String) : Except PyErr AptPackage :=
  if !validate_input_json input operation then .error .valueError
  else
    match input with
    | none => .error .valueError
    | some (.obj fs) =>
        .ok { name := (lookupF fs "name").getD .null,
              version := (lookupF fs "version").getD .null,
              exist := (lookupF fs "_exist").getD (.bool true),
              source := (lookupF fs "source").getD .null,
              dependencies :=
                let d := (lookupF fs "dependencies").getD .null
                if d.truthy then d else .arr [] }
    | some _ => .error .attributeError

/-- The resource-type registry of the adapter: a single key. -/
def registryKeys : List String := ["Microsoft.Linux.Apt/Package"]

/-- ResourceAdapter resolution of a resource-type token: strip, reject the
empty token, then exact or case-insensitive match against the registry
keys.  False models the raised ValueError, which every caller catches and
turns into exit code 2. -/
def resolveOk (resourceType : String) : Bool :=
  let key := pyStrip resourceType
  if key = "" then false
  else registryKeys.contains key || (registryKeys.map pyLower).contains (pyLower key)

/-- The embedded JSON schema constant of the adapter. -/
def aptEmbeddedSchema : JValue :=
  .obj [("$schema", .str "https://json-schema.org/draft/2020-12/schema"),
        ("title", .str "APT Packages Management"),
        ("description", .str "Manages APT Packages on Linux"),
        ("type", .str "object"),
        ("required", .arr [.str "name"]),
        ("additionalProperties", .bool false),
        ("properties", .obj [
          ("name", .obj [("type", .str "string")]),
          ("version", .obj [("type", .str "string")]),
          ("dependencies", .obj [("type", .str "array"),
                                 ("items", .obj [("type", .str "string")]),
                                 ("readOnly", .bool true)]),
          ("_exist", .obj [("$ref", .str "#/$defs/dsc_exist")])]),
        ("$defs", .obj [("dsc_exist", .obj [
          ("$schema", .str "https://json-schema.org/draft/2020-12/schema"),
          ("$id", .str "https://raw.githubusercontent.com/PowerShell/DSC/main/schemas/2024/04/resource/properties/exist.json"),
          ("title", .str "Instance should exist"),
          ("description", .str "Indicates whether the DSC resource instance should exist."),
          ("type", .str "boolean"),
          ("default", .bool true),
          ("enum", .arr [.bool false, .bool true])])])]

/-- The resource descriptor returned by the list operation.  The path and
directory fields are absolute filesystem paths at runtime; they are
modelled by their repo-relative names. -/
def aptResourceDescriptor : JValue :=
  .obj [("type", .str "Microsoft.Linux.Apt/Package"),
        ("kind", .str "resource"),
        ("version", .str "0.1.0"),
        ("capabilities", .arr [.str "get", .str "set", .str "test", .str "export"]),
        ("path", .str "resources/apt/AptPackage.py"),
        ("directory", .str "resources/apt"),
        ("implementedAs", .str "Python"),
        ("author", .str ""),
        ("properties", .arr [.str "name", .str "version", .str "_exist",
                             .str "dependencies"]),
        ("requireAdapter", .str "Microsoft.DSC.Adapters/Python"),
        ("description", .str "Manages APT packages on Linux"),
        ("manifest", .obj [
          ("$schema", .str "https://aka.ms/dsc/schemas/v3/resource/manifest.json"),
          ("type", .str "Microsoft.Linux.Apt/Package"),
          ("version", .str "0.1.0"),
          ("description", .str "Manages APT packages on Linux"),
          ("schema", .obj [("embedded", aptEmbeddedSchema)])])]

/-- The adapter receives its JSON input as a string; an input value of
none models a string that json.loads rejects.  _parse_json swallows the
parse error and substitutes the empty dict. -/
def parseJsonOr (input : Option JValue) : JValue := input.getD (.obj [])

/-- _is_document_payload: the resources key holds a list.  The source
calls payload.get, which would raise on a well-formed non-object input
(an uncaught crash outside every claim); the model answers false there. -/
def isDocumentPayload (j : JValue) : Bool :=
  match j.lookup "resources" with
  | some (.arr _) => true
  | _ => false

/-- The exit-code normalization of both except SystemExit handlers:
int(getattr(se, code-attribute, 1) or 1), so None and 0 both collapse
to 1.  -/
def normalizeExitCode (code : Option Int) : Int :=
  match code with
  | none => 1
  | some n => if n = 0 then 1 else n

/-- A printable stand-in for str(err) of each exception class; the exact
interpreter text is environment-specific and irrelevant to the claims. -/
def pyErrMsg : PyErr → String
  | .typeError => "TypeError"
  | .osError => "OSError"
  | .indexError => "IndexError"
  | .keyError => "KeyError"
  | .valueError => "ValueError"
  | .attributeError => "AttributeError"
  | .calledProcessError => "CalledProcessError"

/-- The two except clauses at the bottom of run_operation: SystemExit is
translated through normalizeExitCode with the message preserved in the
body, every other exception becomes exit code 1. -/
def exnResponse (w : World) (e : PyExn) : World × Int × JValue :=
  match e with
  | .sysExit c =>
      let code := normalizeExitCode c
      (w, code, .obj [("error", .str ("Resource terminated with exit " ++ toString code))])
  | .exn err => (w, 1, .obj [("error", .str (pyErrMsg err))])

/-- The single-resource get response envelope. -/
def getEnvelope (state : JValue) : JValue :=
  .obj [("result", .obj [("actualState", state)])]

/-- The single-resource test response envelope, with inDesiredState set
exactly when the diff list is empty. -/
def testEnvelope (actual : JValue) (diffs : List String) : JValue :=
  .obj [("actualState", actual),
        ("differingProperties", .arr (diffs.map JValue.str)),
        ("inDesiredState", .bool (diffs.length = 0))]

/-- The single-resource set normalization: when the handler returned a
dict containing differingProperties, split it into state and diffs;
otherwise wrap under result (the empty dict when not a dict at all). -/
def setEnvelope (data : JValue) : JValue :=
  match data with
  | .obj fields =>
      if (lookupF fields "differingProperties").isSome then
        .obj [("state", .obj (eraseF fields "differingProperties")),
              ("differingProperties", (lookupF fields "differingProperties").getD (.arr []))]
      else .obj [("result", data)]
  | _ => .obj [("result", .obj [])]

/-- First cleanup statement of the document-mode get branch: the dict
comprehension dropping every key whose value is None. -/
def dropNullFields (fs : List (String × JValue)) : List (String × JValue) :=
  fs.filter (fun kv => !kv.2.isNull)

/-- Second and third cleanup statements: pop the key when present with a
non-string value. -/
def dropNonStrField (fs : List (String × JValue)) (k : String) : List (String × JValue) :=
  match lookupF fs k with
  | some v => if v.isStr then fs else eraseF fs k
  | none => fs

/-- Fourth cleanup statement: when dependencies is present, keep only its
string elements when it is a list and replace it by the empty list
otherwise. -/
def fixDependenciesField (fs : List (String × JValue)) : List (String × JValue) :=
  match lookupF fs "dependencies" with
  | some (.arr xs) => setF fs "dependencies" (.arr (xs.filter JValue.isStr))
  | some _ => setF fs "dependencies" (.arr [])
  | none => fs

/-- The per-entry state cleanup of the document-mode get branch: drop
keys whose value is None, drop source and version when not strings, and
replace dependencies by the sublist of its string elements (the empty
list when it is not a list), in the statement order of the source.
instance.get always returns a dict, so the non-object arm is unreached. -/
def cleanupState (state : JValue) : JValue :=
  match state with
  | .obj fs =>
      .obj (fixDependenciesField
              (dropNonStrField (dropNonStrField (dropNullFields fs) "source") "version"))
  | _ => state

/-- Document-entry type token: (res.get of type or empty).strip().  A
truthy non-string type would raise an uncaught AttributeError in the
source, a path outside every claim; the model yields the empty token. -/
def entryType (res : JValue) : String :=
  match res.lookup "type" with
  | some (.str s) => pyStrip s
  | _ => ""

/-- Document-entry name, defaulting to the empty string. -/
def entryName (res : JValue) : JValue :=
  (res.lookup "name").getD (.str "")

/-- Document-entry properties: res.get with empty-dict default, then the
or-empty-dict truthiness idiom. -/
def entryProps (res : JValue) : JValue :=
  let p := (res.lookup "properties").getD (.obj [])
  if p.truthy then p else .obj []

/-- The except translations of _run_document_operation, identical in
effect to the ones of run_operation. -/
def docExnResult (e : PyExn) : Int × JValue :=
  match e with
  | .sysExit c =>
      let code := normalizeExitCode c
      (code, .obj [("error", .str ("Resource terminated with exit " ++ toString code))])
  | .exn err => (1, .obj [("error", .str (pyErrMsg err))])

/-- One document-mode entry after type resolution: instantiate inside the
branch for the requested operation and produce the entry properties, or
the early (code, body) return of the surrounding function. -/
def docEntry (op : String) (w : World) (props : JValue) : World × Except (Int × JValue) JValue :=
  if op = "get" then
    match from_json (some props) (some "get") with
    | .error e => (w, .error (docExnResult (.exn e)))
    | .ok inst => (w, .ok (cleanupState (aptGet w inst).toJ))
  else if op = "set" then
    match from_json (some props) (some "set") with
    | .error e => (w, .error (docExnResult (.exn e)))
    | .ok inst =>
        match aptSet w inst with
        | (w1, .error e) => (w1, .error (docExnResult (.exn e)))
        | (w1, .ok setResult) =>
            (w1, .ok (match setResult with | .obj fs => .obj fs | _ => .obj []))
  else if op = "test" then
    match from_json (some props) (some "test") with
    | .error e => (w, .error (docExnResult (.exn e)))
    | .ok inst =>
        let (actual, diffs) := aptTest w inst
        (w, .ok (.obj [("InDesiredState", .bool (diffs.length = 0)),
                       ("actualState", actual.toJ),
                       ("differingProperties", .arr (diffs.map JValue.str))]))
  else if op = "export" then
    match from_json (some props) (some "export") with
    | .error e => (w, .error (docExnResult (.exn e)))
    | .ok inst =>
        match aptExport w inst with
        | (w1, .error e) => (w1, .error (docExnResult e))
        | (w1, .ok dataOut) =>
            (w1, .ok (match dataOut with | .obj fs => .obj fs | _ => .obj []))
  else
    (w, .error (2, .obj [("error", .str ("Unsupported operation " ++ op ++ " in document mode"))]))

/-- The resource loop of _run_document_operation: resolve each entry type
(an unresolved type returns exit 2 on the spot), run the entry, aggregate
the per-entry results in order, and let any early return abort the rest
of the loop. -/
def docLoop (op : String) (w : World) : List JValue → World × Except (Int × JValue) (List JValue)
  | [] => (w, .ok [])
  | res :: rest =>
      let dscType := entryType res
      if !resolveOk dscType then
        (w, .error (2, .obj [("error", .str (dscType ++ ": unsupported resource-type"))]))
      else
        match docEntry op w (entryProps res) with
        | (w1, .error err) => (w1, .error err)
        | (w1, .ok properties) =>
            let entry := JValue.obj [("name", entryName res), ("type", .str dscType),
                                     ("properties", properties)]
            match docLoop op w1 rest with
            | (w2, .error err) => (w2, .error err)
            | (w2, .ok results) => (w2, .ok (entry :: results))

/-- The resources list of a document payload. -/
def resourcesOf (data : JValue) : List JValue :=
  match data.lookup "resources" with
  | some (.arr xs) => xs
  | _ => []

/-- Python or between two values: the first when truthy, else the second. -/
def jOr (a b : JValue) : JValue := if a.truthy then a else b

/-- ResourceAdapter._run_document_operation. -/
def runDocumentOperation (op : String) (input : Option JValue) (w : World) : World × Int × JValue :=
  let data := parseJsonOr input
  if !isDocumentPayload data then
    (w, 3, .obj [("error", .str "Invalid document payload: missing resources array")])
  else
    match docLoop op w (resourcesOf data) with
    | (w1, .error (code, body)) => (w1, code, body)
    | (w1, .ok results) =>
        if op = "get" then
          let adapterName :=
            match resourcesOf data with
            | [] => JValue.str ""
            | first :: _ => jOr (first.getD "name") (jOr (first.getD "type") (.str ""))
          (w1, 0, .obj [("name", adapterName),
                        ("type", .str "Microsoft.DSC.Adapters/Python"),
                        ("result", .arr results)])
        else (w1, 0, .arr results)

/-- ResourceAdapter.run_operation: normalize the operation token, answer
list and validate immediately, prefer document-shaped input, and on the
legacy path resolve the resource type, run the disabled validation, and
dispatch, translating raised exceptions through the two except clauses. -/
def run_operation (operation : String) (input : Option JValue) (resourceType : String)
    (w : World) : World × Int × JValue :=
  let op := pyLower (pyStrip operation)
  if op = "list" then (w, 0, aptResourceDescriptor)
  else if op = "validate" then (w, 0, .obj [("valid", .bool true)])
  else
    let asObj := parseJsonOr input
    if isDocumentPayload asObj then
      if !validate_input_json input (some op) then
        (w, 3, .obj [("error", .str "Invalid document JSON")])
      else runDocumentOperation op input w
    else if !resolveOk resourceType then
      (w, 2, .obj [("error", .str ("Unsupported resource-type " ++ resourceType))])
    else if (op = "get" || op = "set" || op = "test" || op = "validate" || op = "export") &&
            !validate_input_json input (some op) then
      (w, 3, .obj [("error", .str "Invalid input JSON")])
    else if op = "get" then
      match from_json input (some "get") with
      | .error e => exnResponse w (.exn e)
      | .ok inst => (w, 0, getEnvelope (aptGet w inst).toJ)
    else if op = "set" then
      match from_json input (some "set") with
      | .error e => exnResponse w (.exn e)
      | .ok inst =>
          match aptSet w inst with
          | (w1, .error e) => exnResponse w1 (.exn e)
          | (w1, .ok data) => (w1, 0, setEnvelope data)
    else if op = "test" then
      match from_json input (some "test") with
      | .error e => exnResponse w (.exn e)
      | .ok inst =>
          let (actual, diffs) := aptTest w inst
          (w, 0, testEnvelope actual.toJ diffs)
    else if op = "export" then
      match from_json input (some "export") with
      | .error e => exnResponse w (.exn e)
      | .ok inst =>
          match aptExport w inst with
          | (w1, .error e) => exnResponse w1 e
          | (w1, .ok data) =>
              (w1, 0, match data with | .obj _ => data | _ => .obj [])
    else
      (w, 2, .obj [("error", .str ("Unsupported operation " ++ operation))])

/-! ### Concrete worlds used by witnesses and counterexamples -/

/-- A quiescent world: nothing installed, every probe answers cleanly. -/
def baseWorld : World :=
  { dpkg := fun _ => .ok [],
    postInstall := fun _ _ => .ok [],
    postRemove := fun _ _ => .ok [],
    installFails := fun _ => false,
    removeFails := fun _ => false,
    showOk := fun _ => false,
    dpkgQueryAll := .ok [],
    showData := fun _ => none,
    policyUrls := fun _ => [],
    policyFails := fun _ => false,
    log := [], printed := [] }

/-- A world in which the apt-cache show probe succeeds for every name but
the enumeration yields no matching package. -/
def probeOkWorld : World := { baseWorld with showOk := fun _ => true }

/-- A world in which installing a package makes dpkg report version 2.0
of it, whatever version the spec asked for. -/
def installTwoWorld : World :=
  { baseWorld with
    postInstall := fun n => fun m =>
      if m = n then .ok ["ii  " ++ n ++ "  2.0  amd64  desc"] else .ok [] }

/-- A spec pinning version 1.0 of package a with desired existence. -/
def pinnedSpec : AptPackage :=
  { name := .str "a", version := .str "1.0", exist := .bool true,
    source := .null, dependencies := .arr [] }

/-- The same spec without a version pin. -/
def unpinnedSpec : AptPackage :=
  { name := .str "a", version := .null, exist := .bool true,
    source := .null, dependencies := .arr [] }

/-- A world where dpkg -l reports two installed versions of foo whose
string order differs from their numeric order. -/
def twoVersionWorld : World :=
  { baseWorld with
    dpkg := fun _ => .ok ["ii  foo  1.9  amd64  d", "ii  foo  1.10  amd64  d"] }

/-- A world where launching dpkg raises an OS-level error (for example
FileNotFoundError when the binary is absent). -/
def dpkgOsErrorWorld : World := { baseWorld with dpkg := fun _ => .error .osError }

/-- A world where dpkg emits a matching ii line with fewer than three
fields. -/
def shortLineWorld : World := { baseWorld with dpkg := fun _ => .ok ["ii a"] }

/-- A world where launching dpkg hypothetically raised CalledProcessError,
the one exception the probe handler does catch. -/
def dpkgCpeWorld : World :=
  { baseWorld with dpkg := fun _ => .error .calledProcessError }

/-- A document payload whose first entry is a registered set that needs a
mutation and whose second entry names an unregistered type. -/
def mixedDoc : JValue :=
  .obj [("resources", .arr [
    .obj [("name", .str "r1"), ("type", .str "Microsoft.Linux.Apt/Package"),
          ("properties", .obj [("name", .str "a"), ("_exist", .bool true)])],
    .obj [("name", .str "r2"), ("type", .str "Bogus/Type"),
          ("properties", .obj [("name", .str "b")])]])]

/-- A document entry with an unregistered type. -/
def bogusEntry : JValue :=
  .obj [("name", .str "r2"), ("type", .str "Bogus/Type"),
        ("properties", .obj [("name", .str "b")])]

/-- A handler state dict with a null version, a non-string source and a
dependencies list holding non-string elements, exercising every cleanup
rule of the document-mode get branch. -/
def dirtyFields : List (String × JValue) :=
  [("name", .str "x"), ("version", .null), ("_exist", .bool false),
   ("source", .num 5), ("dependencies", .arr [.str "a", .null, .str "b"])]

/-! ### Theorems -/

/-- Claim C4 (code bug): export invoked with a filter naming a package for
which the apt-cache show probe fails returns exit code 0 with an Error
body instead of terminating with a nonzero code: the call to the
nonexistent adapter.log_error raises AttributeError, the outer except
Exception absorbs it, and the sys.exit(1) on the next source line never
runs.  The second conjunct shows the intended convention on the other
failure path: a probe that succeeds but an enumeration with no match does
exit nonzero (code 1). -/
theorem export_absent_probe_exit_zero :
    (run_operation "export" (some (.obj [("name", .str "nosuchpkg")]))
      "Microsoft.Linux.Apt/Package" baseWorld).2.1 = 0 ∧
    (run_operation "export" (some (.obj [("name", .str "nosuchpkg")]))
      "Microsoft.Linux.Apt/Package" probeOkWorld).2.1 = 1 :=
  ⟨rfl, rfl⟩

/-- Claim C8 (code bug): installed_pkg_versions propagates query failures
instead of returning the empty list.  Its except clause matches only
subprocess.CalledProcessError, which subprocess.run with check=False
never raises; an OS-level launch failure and the IndexError raised by a
matching dpkg line with fewer than three fields both escape to the
caller.  The last conjunct shows the handler itself: the one exception it
does catch would produce the empty list. -/
theorem probe_failure_propagates :
    installed_pkg_versions dpkgOsErrorWorld (.str "a") = .error .osError ∧
    installed_pkg_versions shortLineWorld (.str "a") = .error .indexError ∧
    installed_pkg_versions dpkgCpeWorld (.str "a") = .ok [] :=
  ⟨rfl, rfl, rfl⟩

/-- Claim C9: a SystemExit whose code attribute is None or 0 is reported
as exit code 1 by both except SystemExit handlers (run_operation and
_run_document_operation); a handler-signalled termination is never
reported as success. -/
theorem sysexit_zero_none_exit_one (c : Option Int) (h : c = none ∨ c = some 0) :
    normalizeExitCode c = 1 ∧
    (∀ w, (exnResponse w (.sysExit c)).2.1 = 1) ∧
    (docExnResult (.sysExit c)).1 = 1 := by
  rcases h with h | h <;> subst h <;>
    exact ⟨rfl, fun _ => rfl, rfl⟩

/-- Witness for sysexit_zero_none_exit_one at code 0. -/
theorem sysexit_zero_none_exit_one_witness :
    normalizeExitCode (some 0) = 1 ∧
    (∀ w, (exnResponse w (.sysExit (some 0))).2.1 = 1) ∧
    (docExnResult (.sysExit (some 0))).1 = 1 :=
  sysexit_zero_none_exit_one (some 0) (Or.inr rfl)

/-- Claim C1: the diff list of test contains _exist exactly when the
desired _exist value differs from the _exist field that get computes for
the same spec, no other property ever appears in the list, and the
adapter test envelope reports inDesiredState exactly when the list is
empty (the actual state of test is the get result itself). -/
theorem test_diffs_track_exist_only (w : World) (p : AptPackage) :
    (aptTest w p).1 = aptGet w p ∧
    (("_exist" ∈ (aptTest w p).2) ↔ p.exist.eqBool (aptGet w p).exist = false) ∧
    (∀ x ∈ (aptTest w p).2, x = "_exist") ∧
    (((testEnvelope (aptTest w p).1.toJ (aptTest w p).2).lookup "inDesiredState"
        = some (.bool true)) ↔ (aptTest w p).2 = []) := by
  unfold aptTest
  cases hb : p.exist.eqBool (aptGet w p).exist <;>
    simp [hb, testEnvelope, JValue.lookup, lookupF]

/-- Witness for test_diffs_track_exist_only on a concrete world and spec. -/
theorem test_diffs_track_exist_only_witness :
    (aptTest baseWorld pinnedSpec).1 = aptGet baseWorld pinnedSpec ∧
    (("_exist" ∈ (aptTest baseWorld pinnedSpec).2) ↔
      pinnedSpec.exist.eqBool (aptGet baseWorld pinnedSpec).exist = false) ∧
    (∀ x ∈ (aptTest baseWorld pinnedSpec).2, x = "_exist") ∧
    (((testEnvelope (aptTest baseWorld pinnedSpec).1.toJ
        (aptTest baseWorld pinnedSpec).2).lookup "inDesiredState"
        = some (.bool true)) ↔ (aptTest baseWorld pinnedSpec).2 = []) :=
  test_diffs_track_exist_only baseWorld pinnedSpec

/-- Claim C2 counterexample: with the validation body commented out, a
malformed JSON input to test yields exit code 1 (the json.loads failure
inside from_json hits the generic except clause), not 3; and a
well-formed input with no name field is accepted and the operation
returns exit code 0, not 3. -/
theorem validation_disabled_cex :
    (run_operation "test" none "Microsoft.Linux.Apt/Package" baseWorld).2.1 = 1 ∧
    (run_operation "test" (some (.obj [])) "Microsoft.Linux.Apt/Package" baseWorld).2.1 = 0 :=
  ⟨rfl, rfl⟩

/-- Claim C2 as amended: on the legacy path with a registered resource
type, malformed JSON input to get, set or test yields exit code 1 with an
error body, and input whose name field is missing is not rejected at all:
get proceeds on it and returns exit code 0. -/
theorem malformed_input_exit_one (w : World) (rt : String) (op : String)
    (hop : op = "get" ∨ op = "set" ∨ op = "test") (hrt : resolveOk rt = true) :
    (run_operation op none rt w).2.1 = 1 ∧
    (run_operation "get" (some (.obj [])) rt w).2.1 = 0 := by
  constructor
  · rcases hop with h | h | h <;> subst h <;>
      simp [run_operation, show pyLower (pyStrip "get") = "get" from by decide,
            show pyLower (pyStrip "set") = "set" from by decide,
            show pyLower (pyStrip "test") = "test" from by decide,
            parseJsonOr, isDocumentPayload, JValue.lookup, lookupF, hrt, from_json,
            validate_input_json, exnResponse]
  · simp [run_operation, show pyLower (pyStrip "get") = "get" from by decide,
          parseJsonOr, isDocumentPayload, JValue.lookup, lookupF, hrt, from_json,
          validate_input_json, getEnvelope]

/-- Witness for malformed_input_exit_one at the registered type. -/
theorem malformed_input_exit_one_witness :
    (run_operation "get" none "Microsoft.Linux.Apt/Package" baseWorld).2.1 = 1 ∧
    (run_operation "get" (some (.obj [])) "Microsoft.Linux.Apt/Package" baseWorld).2.1 = 0 :=
  malformed_input_exit_one baseWorld "Microsoft.Linux.Apt/Package" "get"
    (Or.inl rfl) (by decide)

/-- Claim C3 counterexample: for the operations list and validate the
adapter answers exit code 0 before ever consulting the registry, so an
unregistered resource-type token does not yield exit code 2 for every
operation. -/
theorem list_validate_ignore_registry_cex :
    resolveOk "Bogus/Type" = false ∧
    (run_operation "list" none "Bogus/Type" baseWorld).2.1 = 0 ∧
    (run_operation "validate" none "Bogus/Type" baseWorld).2.1 = 0 :=
  ⟨rfl, rfl, rfl⟩

/-- Claim C3 as amended: for every operation other than list and validate,
with input that is not document-shaped, a resource-type token that does
not resolve against the registry yields exit code 2. -/
theorem unknown_type_exit_two (operation rt : String) (input : Option JValue) (w : World)
    (h1 : pyLower (pyStrip operation) ≠ "list")
    (h2 : pyLower (pyStrip operation) ≠ "validate")
    (hdoc : isDocumentPayload (parseJsonOr input) = false)
    (hrt : resolveOk rt = false) :
    (run_operation operation input rt w).2.1 = 2 := by
  simp [run_operation, h1, h2, hdoc, hrt]

/-- Witness for unknown_type_exit_two at a concrete unregistered token. -/
theorem unknown_type_exit_two_witness :
    (run_operation "get" none "Bogus/Type" baseWorld).2.1 = 2 :=
  unknown_type_exit_two "get" "Bogus/Type" none baseWorld
    (by decide) (by decide) rfl (by decide)

/-- Claim C5 counterexample: with a pinned version that apt-get install
does not produce, the first set installs, the observed state still does
not match, and the second consecutive set with the unchanged spec issues
a second install command (the log grows), while both calls report an
empty differingProperties list. -/
theorem set_repeats_install_cex :
    (aptSet installTwoWorld pinnedSpec).1.log = [PmAction.install "a"] ∧
    (aptSet (aptSet installTwoWorld pinnedSpec).1 pinnedSpec).1.log
      = [PmAction.install "a", PmAction.install "a"] ∧
    (aptSet (aptSet installTwoWorld pinnedSpec).1 pinnedSpec).2
      = .ok (.obj [("_exist", .bool false), ("differingProperties", .arr [])]) :=
  ⟨by decide, by decide, rfl⟩

/-- Claim C5 as amended: set is idempotent provided the first call leaves
the package in the desired state (is_installed equal to the truthiness of
the desired _exist): the second consecutive call with the unchanged spec
performs no mutation (the world, including its command log, is returned
unchanged) and reports an empty differingProperties list.  When the first
call fails to converge, for example under a version pin that install does
not satisfy, set re-issues the mutation on every call. -/
theorem set_idempotent_when_converged (w : World) (p : AptPackage)
    (h : is_installed (aptSet w p).1 p = p.exist.truthy) :
    aptSet (aptSet w p).1 p =
      ((aptSet w p).1,
       .ok (.obj [("_exist", .bool p.exist.truthy),
                  ("differingProperties", .arr [])])) := by
  set w1 := (aptSet w p).1 with hw1
  unfold aptSet
  rw [h]
  cases ht : p.exist.truthy <;> simp [ht, h]

/-- Witness for set_idempotent_when_converged: an unpinned spec whose
install succeeds. -/
theorem set_idempotent_when_converged_witness :
    aptSet (aptSet installTwoWorld unpinnedSpec).1 unpinnedSpec =
      ((aptSet installTwoWorld unpinnedSpec).1,
       .ok (.obj [("_exist", .bool true), ("differingProperties", .arr [])])) :=
  set_idempotent_when_converged installTwoWorld unpinnedSpec (by decide)

/-- Claim C6 counterexample: in document mode, a set document whose first
entry resolves and mutates and whose second entry has an unregistered
type returns the unknown-type classification (exit 2), but the first
entry has already issued its install command: the error return is not
free of partial work. -/
theorem document_partial_mutation_cex :
    (run_operation "set" (some mixedDoc) "" baseWorld).2.1 = 2 ∧
    (run_operation "set" (some mixedDoc) "" baseWorld).1.log = [PmAction.install "a"] :=
  ⟨rfl, by decide⟩

/-- Claim C6 as amended: a payload that is not document-shaped is rejected
with exit 3 before any entry is processed and with the world untouched,
and an unknown resource type aborts the document loop at the offending
entry with exit code 2, executing nothing at or after that entry — but
mutations of entries processed earlier have already happened. -/
theorem document_error_immediate :
    (∀ op input w, isDocumentPayload (parseJsonOr input) = false →
        runDocumentOperation op input w =
          (w, 3, .obj [("error", .str "Invalid document payload: missing resources array")])) ∧
    (∀ op w res rest, resolveOk (entryType res) = false →
        docLoop op w (res :: rest) =
          (w, .error (2, .obj [("error", .str (entryType res ++ ": unsupported resource-type"))]))) := by
  constructor
  · intro op input w hdoc
    simp [runDocumentOperation, hdoc]
  · intro op w res rest h
    simp [docLoop, h]

/-- Witness for document_error_immediate at concrete inputs. -/
theorem document_error_immediate_witness :
    runDocumentOperation "set" (some (.obj [])) baseWorld =
      (baseWorld, 3, .obj [("error", .str "Invalid document payload: missing resources array")]) ∧
    docLoop "set" baseWorld [bogusEntry] =
      (baseWorld, .error (2, .obj [("error", .str "Bogus/Type: unsupported resource-type")])) :=
  ⟨document_error_immediate.1 "set" (some (.obj [])) baseWorld rfl,
   document_error_immediate.2 "set" baseWorld bogusEntry [] rfl⟩

/-! ### Lexicographic order lemmas for the C7 claim -/

theorem charListLe_refl (a : List Char) : charListLe a a = true := by
  induction a with
  | nil => rfl
  | cons c cs ih => simp [charListLe, ih]

theorem pyStrLe_refl (s : String) : pyStrLe s s = true := charListLe_refl s.data

theorem charListLe_total (a b : List Char) : (charListLe a b || charListLe b a) = true := by
  induction a generalizing b with
  | nil => simp [charListLe]
  | cons c cs ih =>
    cases b with
    | nil => simp [charListLe]
    | cons d ds =>
      rcases Nat.lt_trichotomy c.toNat d.toNat with h | h | h
      · simp [charListLe, h]
      · have h1 : ¬ c.toNat < d.toNat := by omega
        have h2 : ¬ d.toNat < c.toNat := by omega
        simpa [charListLe, h1, h2] using ih ds
      · have h1 : ¬ c.toNat < d.toNat := by omega
        simp [charListLe, h, h1]

theorem pyStrLe_total (a b : String) : (pyStrLe a b || pyStrLe b a) = true :=
  charListLe_total a.data b.data

theorem charListLe_trans (a b c : List Char) (h1 : charListLe a b = true)
    (h2 : charListLe b c = true) : charListLe a c = true := by
  induction a generalizing b c with
  | nil => rfl
  | cons x xs ih =>
    cases b with
    | nil => simp [charListLe] at h1
    | cons y ys =>
      cases c with
      | nil => simp [charListLe] at h2
      | cons z zs =>
        simp only [charListLe] at h1 h2 ⊢
        split_ifs at h1 h2 ⊢ <;>
          first
            | rfl
            | omega
            | exact ih ys zs h1 h2

theorem pyStrLe_trans (a b c : String) (h1 : pyStrLe a b = true)
    (h2 : pyStrLe b c = true) : pyStrLe a c = true :=
  charListLe_trans a.data b.data c.data h1 h2

theorem mem_of_getLastQ : ∀ (l : List String) (m : String), l.getLast? = some m → m ∈ l := by
  intro l
  induction l with
  | nil => intro m hm; simp at hm
  | cons a t ih =>
    intro m hm
    cases t with
    | nil =>
      have ham : a = m := by simpa using hm
      simp [ham]
    | cons b t' =>
      rw [List.getLast?_cons_cons] at hm
      exact List.mem_cons_of_mem _ (ih m hm)

theorem getLast_is_max :
    ∀ (l : List String), l.Pairwise (fun a b => pyStrLe a b = true) →
      ∀ m, l.getLast? = some m → ∀ x ∈ l, pyStrLe x m = true := by
  intro l
  induction l with
  | nil => intro _ m hm; simp at hm
  | cons a t ih =>
    intro hp m hm x hx
    cases t with
    | nil =>
      have ham : a = m := by simpa using hm
      have hxa : x = a := by simpa using hx
      subst ham; subst hxa
      exact pyStrLe_refl x
    | cons b t' =>
      rw [List.getLast?_cons_cons] at hm
      rcases List.mem_cons.mp hx with hxa | hxt
      · subst hxa
        exact (List.pairwise_cons.mp hp).1 m (mem_of_getLastQ _ _ hm)
      · exact ih (List.pairwise_cons.mp hp).2 m hm x hxt

/-- Claim C7: when the dpkg query succeeds and its ii-lines parse to the
version list vs, get_latest_installed_version returns None when vs is
empty and otherwise a member of vs that is maximal in the Python string
order (lexicographic by code point, not semantic version order). -/
theorem latest_version_is_lex_max (w : World) (name : String) (lines vs : List String)
    (hq : w.dpkg name = .ok lines) (hp : parseIiVersions name lines = .ok vs) :
    (vs = [] → get_latest_installed_version w (.str name) = none) ∧
    (vs ≠ [] → ∃ m, get_latest_installed_version w (.str name) = some m ∧
        m ∈ vs ∧ ∀ v ∈ vs, pyStrLe v m = true) := by
  have hunfold : get_latest_installed_version w (.str name)
      = if vs.isEmpty then none else (vs.mergeSort pyStrLe).getLast? := by
    simp [get_latest_installed_version, hq, hp]
  constructor
  · intro h; subst h; simp [hunfold]
  · intro h
    have hlen := (List.mergeSort_perm vs pyStrLe).length_eq
    have hne : vs.mergeSort pyStrLe ≠ [] := by
      intro hcon; rw [hcon] at hlen
      exact h (List.length_eq_zero.mp hlen.symm)
    obtain ⟨m, hm⟩ := Option.isSome_iff_exists.mp (List.getLast?_isSome.mpr hne)
    have hsorted := List.sorted_mergeSort
      (fun a b c hab hbc => pyStrLe_trans a b c hab hbc)
      (fun a b => pyStrLe_total a b) vs
    have hmax := getLast_is_max _ hsorted m hm
    have hmemVs : m ∈ vs := (List.mergeSort_perm vs pyStrLe).mem_iff.mp (mem_of_getLastQ _ _ hm)
    have hie : vs.isEmpty = false := by
      cases vs with
      | nil => exact absurd rfl h
      | cons _ _ => rfl
    refine ⟨m, ?_, hmemVs, ?_⟩
    · rw [hunfold, hie]; simpa using hm
    · intro v hv
      exact hmax v ((List.mergeSort_perm vs pyStrLe).mem_iff.mpr hv)

/-- Witness for latest_version_is_lex_max: with installed versions 1.9 and
1.10 the returned maximum is 1.9, the string-order maximum. -/
theorem latest_version_is_lex_max_witness :
    ∃ m, get_latest_installed_version twoVersionWorld (.str "foo") = some m ∧
      m ∈ ["1.9", "1.10"] ∧ ∀ v ∈ ["1.9", "1.10"], pyStrLe v m = true :=
  (latest_version_is_lex_max twoVersionWorld "foo"
      ["ii  foo  1.9  amd64  d", "ii  foo  1.10  amd64  d"] ["1.9", "1.10"]
      rfl rfl).2 (by decide)

/-! ### Association-list lemmas for the C10 claim -/

theorem lookupF_eq_none {fs : List (String × JValue)} {k : String}
    (h : k ∉ fs.map Prod.fst) : lookupF fs k = none := by
  induction fs with
  | nil => rfl
  | cons kv rest ih =>
    obtain ⟨k', v'⟩ := kv
    rw [List.map_cons] at h
    have h1 : ¬ k' = k := fun hc => h (by simp [hc])
    have h2 : k ∉ rest.map Prod.fst := fun hc => h (by simp [hc])
    simp [lookupF, h1, ih h2]

theorem lookupF_filter {fs : List (String × JValue)}
    (hnd : (fs.map Prod.fst).Nodup) (q : String × JValue → Bool) (k : String) :
    lookupF (fs.filter q) k =
      match lookupF fs k with
      | some v => if q (k, v) then some v else none
      | none => none := by
  induction fs with
  | nil => simp [lookupF]
  | cons kv rest ih =>
    obtain ⟨k', v'⟩ := kv
    rw [List.map_cons] at hnd
    have hnd' := List.nodup_cons.mp hnd
    rw [List.filter_cons]
    by_cases hk : k' = k
    · subst hk
      have hrest : lookupF (rest.filter q) k' = none := by
        apply lookupF_eq_none
        intro hmem
        obtain ⟨kv2, hmem2, hfst⟩ := List.mem_map.mp hmem
        exact hnd'.1 (List.mem_map.mpr ⟨kv2, (List.mem_filter.mp hmem2).1, hfst⟩)
      have hlhead : lookupF ((k', v') :: rest) k' = some v' := by simp [lookupF]
      simp only [hlhead]
      by_cases hq : q (k', v')
      · rw [if_pos hq, if_pos hq]
        simp [lookupF]
      · rw [if_neg hq, if_neg hq]
        exact hrest
    · have hlhead : lookupF ((k', v') :: rest) k = lookupF rest k := by
        simp [lookupF, hk]
      simp only [hlhead]
      by_cases hq : q (k', v')
      · rw [if_pos hq]
        have hskip : lookupF ((k', v') :: rest.filter q) k = lookupF (rest.filter q) k := by
          simp [lookupF, hk]
        rw [hskip]
        exact ih hnd'.2
      · rw [if_neg hq]
        exact ih hnd'.2

theorem lookupF_eraseF (fs : List (String × JValue)) (k k' : String) :
    lookupF (eraseF fs k) k' = if k' = k then none else lookupF fs k' := by
  induction fs with
  | nil => by_cases hk : k' = k <;> simp [eraseF, lookupF, hk]
  | cons kv rest ih =>
    obtain ⟨k1, v1⟩ := kv
    by_cases hk1 : k1 = k <;> by_cases hk2 : k1 = k' <;>
      simp_all [eraseF, lookupF]

theorem lookupF_setF (fs : List (String × JValue)) (k k' : String) (v : JValue) :
    lookupF (setF fs k v) k' =
      if k' = k then (lookupF fs k').map (fun _ => v) else lookupF fs k' := by
  induction fs with
  | nil => by_cases hk : k' = k <;> simp [setF, lookupF, hk]
  | cons kv rest ih =>
    obtain ⟨k1, v1⟩ := kv
    simp only [setF]
    by_cases hk1 : k1 = k
    · rw [if_pos hk1]
      by_cases hk2 : k1 = k'
      · have hk3 : k' = k := by rw [← hk2, hk1]
        rw [if_pos hk3]
        simp only [lookupF]
        rw [if_pos hk2, if_pos hk2]
        rfl
      · have hk3 : ¬ k' = k := fun hc => hk2 (by rw [hk1, hc])
        rw [if_neg hk3]
        simp only [lookupF]
        rw [if_neg hk2, if_neg hk2, ih, if_neg hk3]
    · rw [if_neg hk1]
      by_cases hk2 : k1 = k'
      · have hk3 : ¬ k' = k := fun hc => hk1 (by rw [hk2, hc])
        rw [if_neg hk3]
        simp only [lookupF]
        rw [if_pos hk2, if_pos hk2]
      · simp only [lookupF]
        rw [if_neg hk2, if_neg hk2, ih]

theorem lookupF_dropNull {fs : List (String × JValue)}
    (hnd : (fs.map Prod.fst).Nodup) (k : String) :
    lookupF (dropNullFields fs) k =
      match lookupF fs k with
      | some v => if v.isNull then none else some v
      | none => none := by
  rw [dropNullFields, lookupF_filter hnd (fun kv => !kv.2.isNull) k]
  cases h : lookupF fs k with
  | none => rfl
  | some v => cases hn : v.isNull <;> simp [hn]

theorem lookupF_dropNonStr_self (fs : List (String × JValue)) (k : String) :
    lookupF (dropNonStrField fs k) k =
      match lookupF fs k with
      | some v => if v.isStr then some v else none
      | none => none := by
  unfold dropNonStrField
  cases h : lookupF fs k with
  | none => simp [h]
  | some v => cases hs : v.isStr <;> simp [h, hs, lookupF_eraseF]

theorem lookupF_dropNonStr_ne (fs : List (String × JValue)) {k k' : String}
    (h : k' ≠ k) : lookupF (dropNonStrField fs k) k' = lookupF fs k' := by
  unfold dropNonStrField
  cases hl : lookupF fs k with
  | none => rfl
  | some v => cases hs : v.isStr <;> simp [hs, lookupF_eraseF, h]

theorem lookupF_fixDeps_self (fs : List (String × JValue)) :
    lookupF (fixDependenciesField fs) "dependencies" =
      match lookupF fs "dependencies" with
      | some (.arr xs) => some (.arr (xs.filter JValue.isStr))
      | some _ => some (.arr [])
      | none => none := by
  unfold fixDependenciesField
  cases h : lookupF fs "dependencies" with
  | none => simp [h]
  | some v => cases v <;> simp [h, lookupF_setF]

theorem lookupF_fixDeps_ne (fs : List (String × JValue)) {k : String}
    (h : k ≠ "dependencies") :
    lookupF (fixDependenciesField fs) k = lookupF fs k := by
  unfold fixDependenciesField
  cases hl : lookupF fs "dependencies" with
  | none => rfl
  | some v => cases v <;> simp [lookupF_setF, h]

theorem isStr_not_isNull {v : JValue} (h : v.isStr = true) : v.isNull = false := by
  cases v <;> simp_all [JValue.isStr, JValue.isNull]

/-- Claim C10: on a dict with distinct keys, the document-mode get
cleanup never leaves a null-valued field, keeps source and version
exactly when they were strings, rewrites dependencies to the string
sublist of its list value (empty when not a list, gone when it was null),
while the single-resource get envelope passes the handler state through
unmodified under result.actualState. -/
theorem document_get_cleanup (fs : List (String × JValue))
    (hnd : (fs.map Prod.fst).Nodup) :
    (∀ k v, (cleanupState (.obj fs)).lookup k = some v → v.isNull = false) ∧
    (∀ v, ((cleanupState (.obj fs)).lookup "source" = some v) ↔
        (lookupF fs "source" = some v ∧ v.isStr = true)) ∧
    (∀ v, ((cleanupState (.obj fs)).lookup "version" = some v) ↔
        (lookupF fs "version" = some v ∧ v.isStr = true)) ∧
    ((cleanupState (.obj fs)).lookup "dependencies" =
      match lookupF fs "dependencies" with
      | some .null => none
      | some (.arr xs) => some (.arr (xs.filter JValue.isStr))
      | some _ => some (.arr [])
      | none => none) ∧
    (∀ s, ((getEnvelope s).lookup "result").bind (fun r => r.lookup "actualState") = some s) := by
  have hlook : ∀ k, (cleanupState (.obj fs)).lookup k
      = lookupF (fixDependenciesField
          (dropNonStrField (dropNonStrField (dropNullFields fs) "source") "version")) k :=
    fun _ => rfl
  have hsrcEq : (cleanupState (.obj fs)).lookup "source"
      = match lookupF fs "source" with
        | some v => if v.isNull then none else (if v.isStr then some v else none)
        | none => none := by
    rw [hlook "source", lookupF_fixDeps_ne _ (by decide),
        lookupF_dropNonStr_ne _ (by decide), lookupF_dropNonStr_self,
        lookupF_dropNull hnd]
    cases h : lookupF fs "source" with
    | none => rfl
    | some v => cases hn : v.isNull <;> simp [hn]
  have hverEq : (cleanupState (.obj fs)).lookup "version"
      = match lookupF fs "version" with
        | some v => if v.isNull then none else (if v.isStr then some v else none)
        | none => none := by
    rw [hlook "version", lookupF_fixDeps_ne _ (by decide),
        lookupF_dropNonStr_self]
    rw [lookupF_dropNonStr_ne _ (by decide), lookupF_dropNull hnd]
    cases h : lookupF fs "version" with
    | none => rfl
    | some v => cases hn : v.isNull <;> simp [hn]
  have hdepEq : (cleanupState (.obj fs)).lookup "dependencies"
      = match lookupF fs "dependencies" with
        | some .null => none
        | some (.arr xs) => some (.arr (xs.filter JValue.isStr))
        | some _ => some (.arr [])
        | none => none := by
    rw [hlook "dependencies", lookupF_fixDeps_self,
        lookupF_dropNonStr_ne _ (by decide), lookupF_dropNonStr_ne _ (by decide),
        lookupF_dropNull hnd]
    cases h : lookupF fs "dependencies" with
    | none => rfl
    | some v => cases v <;> simp [JValue.isNull]
  have part2 : ∀ v, ((cleanupState (.obj fs)).lookup "source" = some v) ↔
      (lookupF fs "source" = some v ∧ v.isStr = true) := by
    intro v
    rw [hsrcEq]
    cases h : lookupF fs "source" with
    | none => simp
    | some v0 =>
      cases hn : v0.isNull
      · cases hs : v0.isStr
        · simp only [hn, Bool.false_eq_true, reduceIte, hs]
          constructor
          · intro hc; exact absurd hc (by simp)
          · rintro ⟨hv, hvs⟩
            injection hv with hv
            rw [← hv] at hvs
            rw [hs] at hvs
            exact absurd hvs (by simp)
        · simp only [hn, Bool.false_eq_true, reduceIte, hs]
          constructor
          · intro hc
            injection hc with hc
            subst hc
            exact ⟨rfl, hs⟩
          · rintro ⟨hv, _⟩
            injection hv with hv
            rw [hv]
      · simp only [hn, reduceIte]
        constructor
        · intro hc; exact absurd hc (by simp)
        · rintro ⟨hv, hvs⟩
          injection hv with hv
          rw [← hv] at hvs
          rw [isStr_not_isNull hvs] at hn
          exact absurd hn (by simp)
  have part3 : ∀ v, ((cleanupState (.obj fs)).lookup "version" = some v) ↔
      (lookupF fs "version" = some v ∧ v.isStr = true) := by
    intro v
    rw [hverEq]
    cases h : lookupF fs "version" with
    | none => simp
    | some v0 =>
      cases hn : v0.isNull
      · cases hs : v0.isStr
        · simp only [hn, Bool.false_eq_true, reduceIte, hs]
          constructor
          · intro hc; exact absurd hc (by simp)
          · rintro ⟨hv, hvs⟩
            injection hv with hv
            rw [← hv] at hvs
            rw [hs] at hvs
            exact absurd hvs (by simp)
        · simp only [hn, Bool.false_eq_true, reduceIte, hs]
          constructor
          · intro hc
            injection hc with hc
            subst hc
            exact ⟨rfl, hs⟩
          · rintro ⟨hv, _⟩
            injection hv with hv
            rw [hv]
      · simp only [hn, reduceIte]
        constructor
        · intro hc; exact absurd hc (by simp)
        · rintro ⟨hv, hvs⟩
          injection hv with hv
          rw [← hv] at hvs
          rw [isStr_not_isNull hvs] at hn
          exact absurd hn (by simp)
  refine ⟨?_, part2, part3, hdepEq, ?_⟩
  · intro k v hkv
    by_cases hk1 : k = "dependencies"
    · subst hk1
      rw [hdepEq] at hkv
      cases h : lookupF fs "dependencies" with
      | none => rw [h] at hkv; exact absurd hkv (by simp)
      | some v0 =>
        rw [h] at hkv
        cases v0 with
        | null => exact absurd hkv (by simp)
        | bool b => injection hkv with hkv; rw [← hkv]; rfl
        | str s => injection hkv with hkv; rw [← hkv]; rfl
        | num n => injection hkv with hkv; rw [← hkv]; rfl
        | arr xs => injection hkv with hkv; rw [← hkv]; rfl
        | obj f => injection hkv with hkv; rw [← hkv]; rfl
    · by_cases hk2 : k = "source"
      · subst hk2
        obtain ⟨_, hvs⟩ := (part2 v).mp hkv
        exact isStr_not_isNull hvs
      · by_cases hk3 : k = "version"
        · subst hk3
          obtain ⟨_, hvs⟩ := (part3 v).mp hkv
          exact isStr_not_isNull hvs
        · rw [hlook k, lookupF_fixDeps_ne _ hk1,
              lookupF_dropNonStr_ne _ hk3, lookupF_dropNonStr_ne _ hk2,
              lookupF_dropNull hnd] at hkv
          cases h : lookupF fs k with
          | none => rw [h] at hkv; exact absurd hkv (by simp)
          | some v0 =>
            rw [h] at hkv
            simp only [] at hkv
            cases hn : v0.isNull
            · rw [hn] at hkv
              simp at hkv
              rw [← hkv]
              exact hn
            · rw [hn] at hkv
              simp at hkv
  · intro s
    simp [getEnvelope, JValue.lookup, lookupF]

/-- Witness for document_get_cleanup on a concrete dirty state dict. -/
theorem document_get_cleanup_witness :
    (∀ k v, (cleanupState (.obj dirtyFields)).lookup k = some v → v.isNull = false) ∧
    (∀ v, ((cleanupState (.obj dirtyFields)).lookup "source" = some v) ↔
        (lookupF dirtyFields "source" = some v ∧ v.isStr = true)) ∧
    (∀ v, ((cleanupState (.obj dirtyFields)).lookup "version" = some v) ↔
        (lookupF dirtyFields "version" = some v ∧ v.isStr = true)) ∧
    ((cleanupState (.obj dirtyFields)).lookup "dependencies" =
      match lookupF dirtyFields "dependencies" with
      | some .null => none
      | some (.arr xs) => some (.arr (xs.filter JValue.isStr))
      | some _ => some (.arr [])
      | none => none) ∧
    (∀ s, ((getEnvelope s).lookup "result").bind (fun r => r.lookup "actualState") = some s) :=
  document_get_cleanup dirtyFields (by decide)

end DSC
